import Mathlib

/-!
Shallow embedding of the dual-model AI service (`AIService` in the backend's
`aiService` module): `getDualAnalysis`, `getOpenAIResponse`, `getClaudeResponse`
and `selectBestResponse`.

Modelling choices:
* JavaScript numbers that matter here (sampling temperatures) are modelled as
  rationals; the literals involved (0, 0.3, 0.7) are exact in both models.
* A JS object literal passed to an SDK call is modelled as a record whose
  absent keys are `none` (`ApiRequest`).
* The two SDK calls and the host `JSON.parse` are oracles collected in `Env`;
  each is a function, so a given environment is deterministic.
* `Promise.allSettled` of two independent calls is modelled by evaluating the
  two (pure) calls; a rejection's `reason.message` is the `String` of
  `Except.error`.
* `x || d` on a possibly-absent number/string applies the default to any
  falsy value (absent, 0, empty string), as in JS.
-/

/-- JSON values, as produced by the host `JSON.parse`. -/
inductive Json where
  | null : Json
  | bool : Bool → Json
  | num : Rat → Json
  | str : String → Json
  | arr : List Json → Json
  | obj : List (String × Json) → Json
  deriving Repr

/-- Property lookup on a JSON value that is not `null`: a field of an object
(`none` when absent, i.e. JS `undefined`), `undefined` on any non-object. -/
def Json.lookupField : Json → String → Option Json
  | Json.obj kvs, k => kvs.lookup k
  | _, _ => none

/-- JS property access `j[k]`: throws a `TypeError` when the receiver is
`null`, otherwise yields the field (or `undefined`, modelled `none`). -/
def Json.getField (j : Json) (k : String) : Except String (Option Json) :=
  match j with
  | Json.null => Except.error ("TypeError: Cannot read properties of null (reading " ++ k ++ ")")
  | v => Except.ok (v.lookupField k)

/-- JS `v || d` where `v` is a possibly-absent number: the default replaces
`undefined` and any falsy number (`0`). -/
def jsOrRat (v : Option Rat) (d : Rat) : Rat :=
  match v with
  | none => d
  | some x => if x = 0 then d else x

/-- JS `v || d` where `v` is a possibly-absent nonnegative integer. -/
def jsOrNat (v : Option Nat) (d : Nat) : Nat :=
  match v with
  | none => d
  | some x => if x = 0 then d else x

/-- JS `v || d` where `v` is a possibly-absent string (empty string is falsy). -/
def jsOrStr (v : Option String) (d : String) : String :=
  match v with
  | none => d
  | some s => if s = "" then d else s

/-- A chat message `{ role, content }`. -/
structure Message where
  role : String
  content : String
  deriving Repr, DecidableEq

/-- The object literal handed to an SDK `create` call; keys the source does
not put in the literal are `none`. -/
structure ApiRequest where
  model : Option String := none
  messages : List Message := []
  temperature : Option Rat := none
  max_tokens : Option Nat := none
  system : Option String := none
  deriving Repr, DecidableEq

/-- OpenAI usage block. -/
structure OpenAIUsage where
  prompt_tokens : Nat
  completion_tokens : Nat
  total_tokens : Nat
  deriving Repr, DecidableEq

/-- `choices[i].message` of an OpenAI chat completion. -/
structure OpenAIChoiceMessage where
  content : String
  deriving Repr, DecidableEq

/-- One element of `response.choices`. -/
structure OpenAIChoice where
  message : OpenAIChoiceMessage
  finish_reason : String
  deriving Repr, DecidableEq

/-- A successful `openai.chat.completions.create` response. -/
structure OpenAIApiResponse where
  choices : List OpenAIChoice
  usage : OpenAIUsage
  deriving Repr, DecidableEq

/-- Anthropic usage block. -/
structure ClaudeUsage where
  input_tokens : Nat
  output_tokens : Nat
  deriving Repr, DecidableEq

/-- One element of `response.content` of an Anthropic message. -/
structure ClaudeContentBlock where
  text : String
  deriving Repr, DecidableEq

/-- A successful `anthropic.messages.create` response. -/
structure ClaudeApiResponse where
  content : List ClaudeContentBlock
  model : String
  usage : ClaudeUsage
  stop_reason : String
  deriving Repr, DecidableEq

/-- The value `getOpenAIResponse` resolves with. -/
structure OpenAIResult where
  content : String
  model : String
  usage : OpenAIUsage
  finishReason : String
  deriving Repr, DecidableEq

/-- The value `getClaudeResponse` resolves with. -/
structure ClaudeResult where
  content : String
  model : String
  usage : ClaudeUsage
  stopReason : String
  deriving Repr, DecidableEq

/-- The `options` object: absent keys are `none`; `selectBest` is used only
for truthiness, so it is a `Bool` (absent = `false`). -/
structure Options where
  temperature : Option Rat := none
  maxTokens : Option Nat := none
  model : Option String := none
  selectBest : Bool := false
  selectionCriteria : Option String := none
  deriving Repr, DecidableEq

/-- Service state: `fineTunedModel` from the environment variable (`none`
when unset/empty, since `process.env.X || null` is `null` then). -/
structure AIService where
  fineTunedModel : Option String
  deriving Repr, DecidableEq

/-- The external world: the two SDK calls and the host JSON parser. Each is a
function, hence deterministic within one environment. -/
structure Env where
  openaiApi : ApiRequest → Except String OpenAIApiResponse
  claudeApi : ApiRequest → Except String ClaudeApiResponse
  jsonParse : String → Except String Json

/-- `this.fineTunedModel || options.model || 'gpt-4-turbo-preview'`. -/
def openaiModelFor (svc : AIService) (options : Options) : String :=
  jsOrStr svc.fineTunedModel (jsOrStr options.model "gpt-4-turbo-preview")

/-- The object literal `getOpenAIResponse` passes to
`openai.chat.completions.create`. -/
def openaiRequestFor (svc : AIService) (prompt systemPrompt : String) (options : Options) : ApiRequest :=
  { model := some (openaiModelFor svc options)
  , messages := [{ role := "system", content := systemPrompt }, { role := "user", content := prompt }]
  , temperature := some (jsOrRat options.temperature (7/10))
  , max_tokens := some (jsOrNat options.maxTokens 2000)
  , system := none }

/-- `AIService.getOpenAIResponse`: builds the request, calls the SDK; on
success reads `choices[0]`; the `catch` logs and rethrows, so errors pass
through unchanged. -/
def getOpenAIResponse (svc : AIService) (env : Env) (prompt systemPrompt : String) (options : Options) : Except String OpenAIResult :=
  match env.openaiApi (openaiRequestFor svc prompt systemPrompt options) with
  | Except.error e => Except.error e
  | Except.ok response =>
    match response.choices with
    | [] => Except.error "TypeError: Cannot read properties of undefined (reading message)"
    | choice :: _ =>
      Except.ok
        { content := choice.message.content
        , model := openaiModelFor svc options
        , usage := response.usage
        , finishReason := choice.finish_reason }

/-- The object literal `getClaudeResponse` passes to
`anthropic.messages.create`; note there is no `temperature` key. -/
def claudeRequestFor (prompt systemPrompt : String) (options : Options) : ApiRequest :=
  { model := some (jsOrStr options.model "claude-3-5-sonnet-20241022")
  , max_tokens := some (jsOrNat options.maxTokens 2000)
  , system := some systemPrompt
  , messages := [{ role := "user", content := prompt }]
  , temperature := none }

/-- `AIService.getClaudeResponse`: builds the request, calls the SDK; on
success reads `content[0]`; the `catch` logs and rethrows. -/
def getClaudeResponse (env : Env) (prompt systemPrompt : String) (options : Options) : Except String ClaudeResult :=
  match env.claudeApi (claudeRequestFor prompt systemPrompt options) with
  | Except.error e => Except.error e
  | Except.ok response =>
    match response.content with
    | [] => Except.error "TypeError: Cannot read properties of undefined (reading text)"
    | block :: _ =>
      Except.ok
        { content := block.text
        , model := response.model
        , usage := response.usage
        , stopReason := response.stop_reason }

/-- Portion of the judge's evaluation template before the criteria string. -/
def selectionPromptPre (openaiResult : OpenAIResult) (claudeResult : ClaudeResult) (originalPrompt : String) : String :=
  "\nYou are an expert evaluator. Compare these two AI responses and select the better one.\n\nOriginal Prompt: "
    ++ originalPrompt
    ++ "\n\nResponse A (OpenAI):\n"
    ++ openaiResult.content
    ++ "\n\nResponse B (Claude):\n"
    ++ claudeResult.content
    ++ "\n\nEvaluation Criteria: "

/-- The default evaluation criteria used when the caller supplies none. -/
def defaultCriteria : String :=
  "accuracy, helpfulness, clarity, completeness"

/-- Portion of the judge's evaluation template after the criteria string. -/
def selectionPromptPost : String :=
  "\n\nRespond with JSON only:\n\x7b\n  \"selected\": \"A\" or \"B\",\n  \"reasoning\": \"brief explanation\",\n  \"scores\": \x7b\n    \"A\": \x7b \"accuracy\": 1-10, \"helpfulness\": 1-10, \"clarity\": 1-10 \x7d,\n    \"B\": \x7b \"accuracy\": 1-10, \"helpfulness\": 1-10, \"clarity\": 1-10 \x7d\n  \x7d\n\x7d"

/-- The full `selectionPrompt` template of `selectBestResponse`, with
`criteria || 'accuracy, helpfulness, clarity, completeness'` interpolated. -/
def selectionPromptFor (openaiResult : OpenAIResult) (claudeResult : ClaudeResult) (originalPrompt : String) (criteria : Option String) : String :=
  selectionPromptPre openaiResult claudeResult originalPrompt
    ++ jsOrStr criteria defaultCriteria
    ++ selectionPromptPost

/-- System prompt of the judge call. -/
def judgeSystemPrompt : String :=
  "You are an impartial AI evaluator. Respond only with valid JSON."

/-- The options literal `\x7b temperature: 0.3 \x7d` of the judge call. -/
def judgeOptions : Options :=
  { temperature := some (3/10) }

/-- The request the judge call hands to the OpenAI SDK. -/
def judgeRequestFor (svc : AIService) (openaiResult : OpenAIResult) (claudeResult : ClaudeResult) (originalPrompt : String) (criteria : Option String) : ApiRequest :=
  openaiRequestFor svc (selectionPromptFor openaiResult claudeResult originalPrompt criteria) judgeSystemPrompt judgeOptions

/-- The judge's verdict object. `reasoning`/`scores` hold whatever JSON value
the parsed reply's fields had (`none` = absent/`undefined`). -/
structure SelectionOutcome where
  winner : String
  content : String
  reasoning : Option Json
  scores : Option Json
  deriving Repr

/-- `sel === 'A'` where `sel` is the value of a property access (`none` =
`undefined`): strict equality holds exactly when the value is the string
`"A"`. -/
def selIsA (sel : Option Json) : Bool :=
  match sel with
  | some (Json.str s) => s == "A"
  | _ => false

/-- Whether `parsed.selected === 'A'` for a non-null parsed reply. -/
def selectedIsA (parsed : Json) : Bool :=
  selIsA (parsed.lookupField "selected")

/-- The `try` block of `selectBestResponse`: judge call, `JSON.parse`, then
property accesses on the parsed value; any error aborts the block. -/
def judgeAttempt (svc : AIService) (env : Env) (openaiResult : OpenAIResult) (claudeResult : ClaudeResult) (originalPrompt : String) (criteria : Option String) : Except String SelectionOutcome :=
  match getOpenAIResponse svc env
      (selectionPromptFor openaiResult claudeResult originalPrompt criteria)
      judgeSystemPrompt judgeOptions with
  | Except.error e => Except.error e
  | Except.ok evaluation =>
    match env.jsonParse evaluation.content with
    | Except.error e => Except.error e
    | Except.ok parsed =>
      match parsed.getField "selected" with
      | Except.error e => Except.error e
      | Except.ok sel =>
        match parsed.getField "reasoning" with
        | Except.error e => Except.error e
        | Except.ok reasoning =>
          match parsed.getField "scores" with
          | Except.error e => Except.error e
          | Except.ok scores =>
            Except.ok
              { winner := if selIsA sel then "openai" else "claude"
              , content := if selIsA sel then openaiResult.content else claudeResult.content
              , reasoning := reasoning
              , scores := scores }

/-- The fixed fallback verdict of the `catch` block. -/
def fallbackOutcome (claudeResult : ClaudeResult) : SelectionOutcome :=
  { winner := "claude"
  , content := claudeResult.content
  , reasoning := some (Json.str "Default selection due to evaluation error")
  , scores := none }

/-- `AIService.selectBestResponse`: the `try` block on success, the fixed
default on any error. -/
def selectBestResponse (svc : AIService) (env : Env) (openaiResult : OpenAIResult) (claudeResult : ClaudeResult) (originalPrompt : String) (criteria : Option String) : SelectionOutcome :=
  match judgeAttempt svc env openaiResult claudeResult originalPrompt criteria with
  | Except.ok outcome => outcome
  | Except.error _ => fallbackOutcome claudeResult

/-- The `errors` object of `getDualAnalysis`. -/
structure DualErrors where
  openai : Option String := none
  claude : Option String := none
  deriving Repr, DecidableEq

/-- The structure `getDualAnalysis` resolves with. -/
structure DualResults where
  openai : Option OpenAIResult
  claude : Option ClaudeResult
  errors : DualErrors
  selected : Option SelectionOutcome
  deriving Repr

/-- `AIService.getDualAnalysis`: all-settled dispatch of the two backend
calls, per-backend error capture, and conditional judge invocation. The
function is total: no exception escapes. -/
def getDualAnalysis (svc : AIService) (env : Env) (prompt systemPrompt : String) (options : Options) : DualResults :=
  let openaiResponse := getOpenAIResponse svc env prompt systemPrompt options
  let claudeResponse := getClaudeResponse env prompt systemPrompt options
  let openaiSlot := openaiResponse.toOption
  let claudeSlot := claudeResponse.toOption
  let errors : DualErrors :=
    { openai := match openaiResponse with | Except.error m => some m | Except.ok _ => none
    , claude := match claudeResponse with | Except.error m => some m | Except.ok _ => none }
  let selected : Option SelectionOutcome :=
    match options.selectBest, openaiSlot, claudeSlot with
    | true, some o, some c => some (selectBestResponse svc env o c prompt options.selectionCriteria)
    | _, _, _ => none
  { openai := openaiSlot, claude := claudeSlot, errors := errors, selected := selected }

/-! ### Helper lemmas -/

/-- A successful field lookup means the receiver was an object, hence not
`null`. -/
theorem lookupField_some_ne_null {j : Json} {k : String} {v : Json}
    (h : j.lookupField k = some v) : j ≠ Json.null := by
  cases j <;> simp_all [Json.lookupField]

/-- On a non-null receiver, property access never throws. -/
theorem getField_of_ne_null {j : Json} (h : j ≠ Json.null) (k : String) :
    j.getField k = Except.ok (j.lookupField k) := by
  cases j <;> simp_all [Json.getField]

/-- When the judge call itself errors, the `try` block errors with it. -/
theorem judgeAttempt_of_judge_error {svc : AIService} {env : Env}
    {o : OpenAIResult} {c : ClaudeResult} {p : String} {cr : Option String} {e : String}
    (hj : getOpenAIResponse svc env (selectionPromptFor o c p cr) judgeSystemPrompt judgeOptions
          = Except.error e) :
    judgeAttempt svc env o c p cr = Except.error e := by
  unfold judgeAttempt
  rw [hj]

/-- When the judge call succeeds but its reply fails `JSON.parse`, the `try`
block errors. -/
theorem judgeAttempt_of_parse_error {svc : AIService} {env : Env}
    {o : OpenAIResult} {c : ClaudeResult} {p : String} {cr : Option String}
    {ev : OpenAIResult} {e : String}
    (hj : getOpenAIResponse svc env (selectionPromptFor o c p cr) judgeSystemPrompt judgeOptions
          = Except.ok ev)
    (hp : env.jsonParse ev.content = Except.error e) :
    judgeAttempt svc env o c p cr = Except.error e := by
  simp only [judgeAttempt, hj, hp]

/-- When the reply parses to `null`, the access `parsed.selected` throws and
the `try` block errors. -/
theorem judgeAttempt_of_parse_null {svc : AIService} {env : Env}
    {o : OpenAIResult} {c : ClaudeResult} {p : String} {cr : Option String}
    {ev : OpenAIResult}
    (hj : getOpenAIResponse svc env (selectionPromptFor o c p cr) judgeSystemPrompt judgeOptions
          = Except.ok ev)
    (hp : env.jsonParse ev.content = Except.ok Json.null) :
    judgeAttempt svc env o c p cr
      = Except.error "TypeError: Cannot read properties of null (reading selected)" := by
  simp only [judgeAttempt, hj, hp, Json.getField]
  rfl

/-- When the reply parses to a non-null value, the `try` block succeeds and
returns the dispatch on `parsed.selected === 'A'` with the reply's
`reasoning` and `scores` passed through. -/
theorem judgeAttempt_of_parse_ok {svc : AIService} {env : Env}
    {o : OpenAIResult} {c : ClaudeResult} {p : String} {cr : Option String}
    {ev : OpenAIResult} {parsed : Json}
    (hj : getOpenAIResponse svc env (selectionPromptFor o c p cr) judgeSystemPrompt judgeOptions
          = Except.ok ev)
    (hp : env.jsonParse ev.content = Except.ok parsed)
    (hnn : parsed ≠ Json.null) :
    judgeAttempt svc env o c p cr = Except.ok
      { winner := if selectedIsA parsed then "openai" else "claude"
      , content := if selectedIsA parsed then o.content else c.content
      , reasoning := parsed.lookupField "reasoning"
      , scores := parsed.lookupField "scores" } := by
  simp only [judgeAttempt, hj, hp, getField_of_ne_null hnn, selectedIsA]

/-- Any successful `try`-block outcome names one of the two inputs and
carries that input's content. -/
theorem judgeAttempt_ok_shape {svc : AIService} {env : Env}
    {o : OpenAIResult} {c : ClaudeResult} {p : String} {cr : Option String}
    {out : SelectionOutcome}
    (h : judgeAttempt svc env o c p cr = Except.ok out) :
    (out.winner = "openai" ∧ out.content = o.content) ∨
    (out.winner = "claude" ∧ out.content = c.content) := by
  cases hj : getOpenAIResponse svc env (selectionPromptFor o c p cr) judgeSystemPrompt judgeOptions with
  | error e =>
    rw [judgeAttempt_of_judge_error hj] at h
    exact absurd h (by simp)
  | ok ev =>
    cases hp : env.jsonParse ev.content with
    | error e =>
      rw [judgeAttempt_of_parse_error hj hp] at h
      exact absurd h (by simp)
    | ok parsed =>
      by_cases hnn : parsed = Json.null
      · subst hnn
        rw [judgeAttempt_of_parse_null hj hp] at h
        exact absurd h (by simp)
      · rw [judgeAttempt_of_parse_ok hj hp hnn] at h
        rw [Except.ok.injEq] at h
        subst h
        cases hA : selectedIsA parsed with
        | true => exact Or.inl ⟨by simp [hA], by simp [hA]⟩
        | false => exact Or.inr ⟨by simp [hA], by simp [hA]⟩

/-- `selectBestResponse` is the `try` block's outcome on success, the fixed
fallback on error. -/
theorem selectBestResponse_of_attempt_ok {svc : AIService} {env : Env}
    {o : OpenAIResult} {c : ClaudeResult} {p : String} {cr : Option String}
    {out : SelectionOutcome}
    (h : judgeAttempt svc env o c p cr = Except.ok out) :
    selectBestResponse svc env o c p cr = out := by
  unfold selectBestResponse
  rw [h]

/-- `selectBestResponse` returns the fixed fallback on any `try`-block
error. -/
theorem selectBestResponse_of_attempt_error {svc : AIService} {env : Env}
    {o : OpenAIResult} {c : ClaudeResult} {p : String} {cr : Option String} {e : String}
    (h : judgeAttempt svc env o c p cr = Except.error e) :
    selectBestResponse svc env o c p cr = fallbackOutcome c := by
  unfold selectBestResponse
  rw [h]

/-- Every `selectBestResponse` outcome names one of the two inputs and
carries that input's content. -/
theorem selectBestResponse_shape (svc : AIService) (env : Env)
    (o : OpenAIResult) (c : ClaudeResult) (p : String) (cr : Option String) :
    ((selectBestResponse svc env o c p cr).winner = "openai" ∧
      (selectBestResponse svc env o c p cr).content = o.content) ∨
    ((selectBestResponse svc env o c p cr).winner = "claude" ∧
      (selectBestResponse svc env o c p cr).content = c.content) := by
  cases h : judgeAttempt svc env o c p cr with
  | ok out =>
    rw [selectBestResponse_of_attempt_ok h]
    exact judgeAttempt_ok_shape h
  | error e =>
    rw [selectBestResponse_of_attempt_error h]
    exact Or.inr ⟨rfl, rfl⟩

/-! ### Claim theorems -/

/-- Claim C1: whenever the judge call errors, or its reply fails to parse as
the structured document, `selectBestResponse` does not propagate the error
and returns the fixed `SelectionOutcome` selecting the second backend
(claude) with claude's generated text, rationale exactly
"Default selection due to evaluation error" and no sub-scores. The outcome
equals a record depending only on the claude result, hence it is the same on
every such invocation, independent of the unparseable reply's content. -/
theorem selectBestResponse_fallback_on_judge_error
    (svc : AIService) (env : Env) (o : OpenAIResult) (c : ClaudeResult)
    (p : String) (cr : Option String)
    (h : (∃ e, getOpenAIResponse svc env (selectionPromptFor o c p cr) judgeSystemPrompt judgeOptions
            = Except.error e)
       ∨ (∃ ev e, getOpenAIResponse svc env (selectionPromptFor o c p cr) judgeSystemPrompt judgeOptions
            = Except.ok ev
          ∧ env.jsonParse ev.content = Except.error e)) :
    selectBestResponse svc env o c p cr =
      { winner := "claude"
      , content := c.content
      , reasoning := some (Json.str "Default selection due to evaluation error")
      , scores := none } := by
  rcases h with ⟨e, hj⟩ | ⟨ev, e, hj, hp⟩
  · rw [selectBestResponse_of_attempt_error (judgeAttempt_of_judge_error hj)]
    rfl
  · rw [selectBestResponse_of_attempt_error (judgeAttempt_of_parse_error hj hp)]
    rfl

/-! ### Concrete fixtures for witnesses -/

/-- Service with no fine-tuned model configured. -/
def svcW : AIService := { fineTunedModel := none }

/-- A concrete OpenAI generation result. -/
def oResW : OpenAIResult :=
  { content := "alpha"
  , model := "gpt-4-turbo-preview"
  , usage := { prompt_tokens := 3, completion_tokens := 5, total_tokens := 8 }
  , finishReason := "stop" }

/-- A concrete Claude generation result. -/
def cResW : ClaudeResult :=
  { content := "beta"
  , model := "claude-3-5-sonnet-20241022"
  , usage := { input_tokens := 3, output_tokens := 5 }
  , stopReason := "end_turn" }

/-- An OpenAI API stub answering every request with the given text. -/
def oaStub (text : String) : ApiRequest → Except String OpenAIApiResponse :=
  fun _ => Except.ok
    { choices := [{ message := { content := text }, finish_reason := "stop" }]
    , usage := { prompt_tokens := 1, completion_tokens := 1, total_tokens := 2 } }

/-- A Claude API stub answering every request with the given text. -/
def clStub (text : String) : ApiRequest → Except String ClaudeApiResponse :=
  fun _ => Except.ok
    { content := [{ text := text }]
    , model := "claude-3-5-sonnet-20241022"
    , usage := { input_tokens := 1, output_tokens := 2 }
    , stop_reason := "end_turn" }

/-- Environment whose judge reply is not JSON. -/
def envParseFail : Env :=
  { openaiApi := oaStub "not json"
  , claudeApi := fun _ => Except.error "unused"
  , jsonParse := fun _ => Except.error "Unexpected token" }

/-- The evaluation result the judge call yields under `oaStub text`. -/
def evalResW (text : String) : OpenAIResult :=
  { content := text
  , model := "gpt-4-turbo-preview"
  , usage := { prompt_tokens := 1, completion_tokens := 1, total_tokens := 2 }
  , finishReason := "stop" }

/-- Witness for C1: a concrete environment whose judge reply fails to parse,
on which the fallback outcome is produced. -/
theorem selectBestResponse_fallback_on_judge_error_witness :
    ((∃ e, getOpenAIResponse svcW envParseFail (selectionPromptFor oResW cResW "q" none)
            judgeSystemPrompt judgeOptions = Except.error e)
      ∨ (∃ ev e, getOpenAIResponse svcW envParseFail (selectionPromptFor oResW cResW "q" none)
            judgeSystemPrompt judgeOptions = Except.ok ev
          ∧ envParseFail.jsonParse ev.content = Except.error e))
    ∧ selectBestResponse svcW envParseFail oResW cResW "q" none =
      { winner := "claude"
      , content := cResW.content
      , reasoning := some (Json.str "Default selection due to evaluation error")
      , scores := none } :=
  ⟨Or.inr ⟨evalResW "not json", "Unexpected token", rfl, rfl⟩,
    selectBestResponse_fallback_on_judge_error svcW envParseFail oResW cResW "q" none
      (Or.inr ⟨evalResW "not json", "Unexpected token", rfl, rfl⟩)⟩

/-- Default (empty) options object. -/
def optsW : Options := {}

/-- Options requesting best-of-two selection. -/
def optsSB : Options := { selectBest := true }

/-- Environment where the OpenAI backend fails and Claude succeeds. -/
def envOpenAIDown : Env :=
  { openaiApi := fun _ => Except.error "openai down"
  , claudeApi := clStub "beta"
  , jsonParse := fun _ => Except.error "unused" }

/-- Environment where the Claude backend fails and OpenAI succeeds. -/
def envClaudeDown : Env :=
  { openaiApi := oaStub "alpha"
  , claudeApi := fun _ => Except.error "claude down"
  , jsonParse := fun _ => Except.error "unused" }

/-- Environment where both backends fail. -/
def envBothDown : Env :=
  { openaiApi := fun _ => Except.error "openai down"
  , claudeApi := fun _ => Except.error "claude down"
  , jsonParse := fun _ => Except.error "unused" }

/-- Environment where both backends succeed (judge reply unparseable). -/
def envBothOk : Env :=
  { openaiApi := oaStub "alpha"
  , claudeApi := clStub "beta"
  , jsonParse := fun _ => Except.error "Unexpected token" }

/-- Claim C2: if one backend call fails and the other succeeds,
`getDualAnalysis` returns the successful backend's result in its slot, `null`
in the failed backend's slot, an error entry for the failed backend carrying
that failure's message, and no error entry for the successful backend —
in either direction. (The two calls are independent oracle evaluations, so
neither aborts the other.) -/
theorem getDualAnalysis_single_failure_independence
    (svc : AIService) (env : Env) (prompt systemPrompt : String) (options : Options) (m : String) :
    (∀ c : ClaudeResult,
      getOpenAIResponse svc env prompt systemPrompt options = Except.error m →
      getClaudeResponse env prompt systemPrompt options = Except.ok c →
        (getDualAnalysis svc env prompt systemPrompt options).openai = none
        ∧ (getDualAnalysis svc env prompt systemPrompt options).claude = some c
        ∧ (getDualAnalysis svc env prompt systemPrompt options).errors.openai = some m
        ∧ (getDualAnalysis svc env prompt systemPrompt options).errors.claude = none)
    ∧ (∀ o : OpenAIResult,
      getClaudeResponse env prompt systemPrompt options = Except.error m →
      getOpenAIResponse svc env prompt systemPrompt options = Except.ok o →
        (getDualAnalysis svc env prompt systemPrompt options).claude = none
        ∧ (getDualAnalysis svc env prompt systemPrompt options).openai = some o
        ∧ (getDualAnalysis svc env prompt systemPrompt options).errors.claude = some m
        ∧ (getDualAnalysis svc env prompt systemPrompt options).errors.openai = none) := by
  constructor
  · intro c hj hc
    refine ⟨?_, ?_, ?_, ?_⟩ <;> simp [getDualAnalysis, hj, hc, Except.toOption]
  · intro o hc hj
    refine ⟨?_, ?_, ?_, ?_⟩ <;> simp [getDualAnalysis, hj, hc, Except.toOption]

/-- Witness for C2: OpenAI down, Claude up, on concrete stubs. -/
theorem getDualAnalysis_single_failure_independence_witness :
    (getDualAnalysis svcW envOpenAIDown "p" "s" optsW).openai = none
    ∧ (getDualAnalysis svcW envOpenAIDown "p" "s" optsW).claude =
        some { content := "beta"
             , model := "claude-3-5-sonnet-20241022"
             , usage := { input_tokens := 1, output_tokens := 2 }
             , stopReason := "end_turn" }
    ∧ (getDualAnalysis svcW envOpenAIDown "p" "s" optsW).errors.openai = some "openai down"
    ∧ (getDualAnalysis svcW envOpenAIDown "p" "s" optsW).errors.claude = none :=
  (getDualAnalysis_single_failure_independence svcW envOpenAIDown "p" "s" optsW "openai down").1
    { content := "beta"
    , model := "claude-3-5-sonnet-20241022"
    , usage := { input_tokens := 1, output_tokens := 2 }
    , stopReason := "end_turn" } rfl rfl

/-- Claim C3: with `selectBest` set, a `SelectionOutcome` is attached if and
only if both backend calls produced a result; when either failed, no outcome
is attached (and hence the judge is never consulted). -/
theorem getDualAnalysis_selected_iff_both_ok
    (svc : AIService) (env : Env) (prompt systemPrompt : String) (options : Options)
    (h : options.selectBest = true) :
    (getDualAnalysis svc env prompt systemPrompt options).selected.isSome
      ↔ ((getDualAnalysis svc env prompt systemPrompt options).openai.isSome
        ∧ (getDualAnalysis svc env prompt systemPrompt options).claude.isSome) := by
  cases ho : getOpenAIResponse svc env prompt systemPrompt options with
  | error e => simp [getDualAnalysis, ho, h, Except.toOption]
  | ok o =>
    cases hc : getClaudeResponse env prompt systemPrompt options with
    | error e => simp [getDualAnalysis, ho, hc, h, Except.toOption]
    | ok c => simp [getDualAnalysis, ho, hc, h, Except.toOption]

/-- Witness for C3: both backends up and `selectBest` set. -/
theorem getDualAnalysis_selected_iff_both_ok_witness :
    (getDualAnalysis svcW envBothOk "p" "s" optsSB).selected.isSome
      ↔ ((getDualAnalysis svcW envBothOk "p" "s" optsSB).openai.isSome
        ∧ (getDualAnalysis svcW envBothOk "p" "s" optsSB).claude.isSome) :=
  getDualAnalysis_selected_iff_both_ok svcW envBothOk "p" "s" optsSB rfl

/-- Claim C4: when both backend calls fail, `getDualAnalysis` still returns
normally (it is a total function) with both result slots `null`, the two
error entries carrying the respective failure messages, and no selection. -/
theorem getDualAnalysis_both_fail
    (svc : AIService) (env : Env) (prompt systemPrompt : String) (options : Options)
    (m1 m2 : String)
    (h1 : getOpenAIResponse svc env prompt systemPrompt options = Except.error m1)
    (h2 : getClaudeResponse env prompt systemPrompt options = Except.error m2) :
    getDualAnalysis svc env prompt systemPrompt options =
      { openai := none
      , claude := none
      , errors := { openai := some m1, claude := some m2 }
      , selected := none } := by
  cases hsb : options.selectBest <;>
    simp [getDualAnalysis, h1, h2, hsb, Except.toOption]

/-- Witness for C4: both backend stubs throw. -/
theorem getDualAnalysis_both_fail_witness :
    getDualAnalysis svcW envBothDown "p" "s" optsW =
      { openai := none
      , claude := none
      , errors := { openai := some "openai down", claude := some "claude down" }
      , selected := none } :=
  getDualAnalysis_both_fail svcW envBothDown "p" "s" optsW "openai down" "claude down" rfl rfl

/-- Claim C5: when the judge reply parses and its `selected` field is exactly
the string "A", the outcome's winner is the first backend (openai), its
content is the OpenAI result's text verbatim, and `reasoning`/`scores` are
the parsed reply's fields passed through unchanged; analogously for "B" and
the claude result. -/
theorem selectBestResponse_parse_success_pass_through
    (svc : AIService) (env : Env) (o : OpenAIResult) (c : ClaudeResult)
    (p : String) (cr : Option String) (ev : OpenAIResult) (parsed : Json)
    (hj : getOpenAIResponse svc env (selectionPromptFor o c p cr) judgeSystemPrompt judgeOptions
          = Except.ok ev)
    (hp : env.jsonParse ev.content = Except.ok parsed) :
    (parsed.lookupField "selected" = some (Json.str "A") →
      selectBestResponse svc env o c p cr =
        { winner := "openai", content := o.content
        , reasoning := parsed.lookupField "reasoning"
        , scores := parsed.lookupField "scores" })
    ∧ (parsed.lookupField "selected" = some (Json.str "B") →
      selectBestResponse svc env o c p cr =
        { winner := "claude", content := c.content
        , reasoning := parsed.lookupField "reasoning"
        , scores := parsed.lookupField "scores" }) := by
  constructor
  · intro hs
    rw [selectBestResponse_of_attempt_ok
      (judgeAttempt_of_parse_ok hj hp (lookupField_some_ne_null hs))]
    simp [selectedIsA, selIsA, hs]
  · intro hs
    rw [selectBestResponse_of_attempt_ok
      (judgeAttempt_of_parse_ok hj hp (lookupField_some_ne_null hs))]
    simp [selectedIsA, selIsA, hs]

/-- The structured reply used in the C5 witness: selects "A" with a rationale
and per-label sub-scores. -/
def judgeReplyA : Json :=
  Json.obj
    [ ("selected", Json.str "A")
    , ("reasoning", Json.str "clearer")
    , ("scores", Json.obj
        [ ("A", Json.obj [("accuracy", Json.num 9), ("helpfulness", Json.num 8), ("clarity", Json.num 9)])
        , ("B", Json.obj [("accuracy", Json.num 7), ("helpfulness", Json.num 8), ("clarity", Json.num 6)])])]

/-- Environment whose judge reply parses to `judgeReplyA`. -/
def envJudgeA : Env :=
  { openaiApi := oaStub "replyA"
  , claudeApi := fun _ => Except.error "unused"
  , jsonParse := fun s => if s = "replyA" then Except.ok judgeReplyA else Except.error "Unexpected token" }

/-- Witness for C5: a concrete parsed reply selecting "A". -/
theorem selectBestResponse_parse_success_pass_through_witness :
    judgeReplyA.lookupField "selected" = some (Json.str "A")
    ∧ selectBestResponse svcW envJudgeA oResW cResW "q" none =
        { winner := "openai", content := oResW.content
        , reasoning := judgeReplyA.lookupField "reasoning"
        , scores := judgeReplyA.lookupField "scores" } :=
  ⟨rfl,
    (selectBestResponse_parse_success_pass_through svcW envJudgeA oResW cResW "q" none
      (evalResW "replyA") judgeReplyA rfl rfl).1 rfl⟩

/-- Options with an explicit sampling temperature of 0.5. -/
def optsHalfTemp : Options := { temperature := some (1/2) }

/-- Counterexample to claim C6: the claim says each of the two backend
requests carries the caller's sampling temperature, but with temperature 0.5
supplied the Claude request carries no temperature key at all. -/
theorem claude_request_omits_temperature :
    (claudeRequestFor "p" "s" optsHalfTemp).temperature = none
    ∧ (claudeRequestFor "p" "s" optsHalfTemp).temperature ≠ some (1/2) := by
  exact ⟨rfl, by simp [claudeRequestFor]⟩

/-- Claim C6 as amended: the OpenAI request carries the caller's sampling
temperature (default 0.7) and max output length (default 2000); the Claude
request carries the caller's max output length (default 2000), the system
instruction and the user prompt, but omits sampling temperature entirely.
The final two conjuncts record the default values taken when the options
omit the fields. -/
theorem backend_request_parameters
    (svc : AIService) (prompt systemPrompt : String) (options : Options) :
    (openaiRequestFor svc prompt systemPrompt options).temperature
        = some (jsOrRat options.temperature (7/10))
    ∧ (openaiRequestFor svc prompt systemPrompt options).max_tokens
        = some (jsOrNat options.maxTokens 2000)
    ∧ (claudeRequestFor prompt systemPrompt options).max_tokens
        = some (jsOrNat options.maxTokens 2000)
    ∧ (claudeRequestFor prompt systemPrompt options).temperature = none
    ∧ (openaiRequestFor svc prompt systemPrompt options).messages =
        [{ role := "system", content := systemPrompt }, { role := "user", content := prompt }]
    ∧ (claudeRequestFor prompt systemPrompt options).system = some systemPrompt
    ∧ (claudeRequestFor prompt systemPrompt options).messages =
        [{ role := "user", content := prompt }]
    ∧ jsOrRat none (7/10) = 7/10
    ∧ jsOrNat none 2000 = 2000 :=
  ⟨rfl, rfl, rfl, rfl, rfl, rfl, rfl, rfl, rfl⟩

/-- Claim C7: the judge's outbound evaluation request uses sampling
temperature 0.3 — lower than the ordinary-generation default 0.7 — and when
no criteria string is supplied, the evaluation prompt embeds the default
criteria string "accuracy, helpfulness, clarity, completeness". -/
theorem judge_request_low_temperature_and_default_criteria
    (svc : AIService) (o : OpenAIResult) (c : ClaudeResult) (p : String) :
    (judgeRequestFor svc o c p none).temperature = some (3/10)
    ∧ ((3 : Rat)/10 < 7/10)
    ∧ (judgeRequestFor svc o c p none).messages =
        [{ role := "system", content := judgeSystemPrompt }
        , { role := "user", content := selectionPromptFor o c p none }]
    ∧ (∃ s t, selectionPromptFor o c p none
        = s ++ "accuracy, helpfulness, clarity, completeness" ++ t) :=
  ⟨by norm_num [judgeRequestFor, openaiRequestFor, judgeOptions, jsOrRat],
    by norm_num, rfl, ⟨selectionPromptPre o c p, selectionPromptPost, rfl⟩⟩

/-- Claim C8 (invariant): every `SelectionOutcome` attached by
`getDualAnalysis` — whether from a successful judge parse or from the
fallback — names as winner, and carries the content of, a backend that
produced a result in that same call; it never references a failed backend. -/
theorem getDualAnalysis_selection_references_success
    (svc : AIService) (env : Env) (prompt systemPrompt : String) (options : Options)
    (out : SelectionOutcome)
    (h : (getDualAnalysis svc env prompt systemPrompt options).selected = some out) :
    ∃ o c, (getDualAnalysis svc env prompt systemPrompt options).openai = some o
      ∧ (getDualAnalysis svc env prompt systemPrompt options).claude = some c
      ∧ ((out.winner = "openai" ∧ out.content = o.content)
        ∨ (out.winner = "claude" ∧ out.content = c.content)) := by
  cases hsb : options.selectBest with
  | false => simp [getDualAnalysis, hsb] at h
  | true =>
    cases ho : getOpenAIResponse svc env prompt systemPrompt options with
    | error e => simp [getDualAnalysis, hsb, ho, Except.toOption] at h
    | ok o =>
      cases hc : getClaudeResponse env prompt systemPrompt options with
      | error e => simp [getDualAnalysis, hsb, ho, hc, Except.toOption] at h
      | ok c =>
        refine ⟨o, c, ?_, ?_, ?_⟩
        · simp [getDualAnalysis, ho, Except.toOption]
        · simp [getDualAnalysis, hc, Except.toOption]
        · have hout : selectBestResponse svc env o c prompt options.selectionCriteria = out := by
            simpa [getDualAnalysis, hsb, ho, hc, Except.toOption] using h
          rw [← hout]
          exact selectBestResponse_shape svc env o c prompt options.selectionCriteria

/-- Witness for C8: both backends up, `selectBest` set, judge reply
unparseable, so the attached outcome is the fallback referencing claude. -/
theorem getDualAnalysis_selection_references_success_witness :
    (getDualAnalysis svcW envBothOk "p" "s" optsSB).selected =
      some { winner := "claude"
           , content := "beta"
           , reasoning := some (Json.str "Default selection due to evaluation error")
           , scores := none }
    ∧ ∃ o c, (getDualAnalysis svcW envBothOk "p" "s" optsSB).openai = some o
      ∧ (getDualAnalysis svcW envBothOk "p" "s" optsSB).claude = some c
      ∧ ((SelectionOutcome.winner
            { winner := "claude"
            , content := "beta"
            , reasoning := some (Json.str "Default selection due to evaluation error")
            , scores := none } = "openai"
          ∧ SelectionOutcome.content
            { winner := "claude"
            , content := "beta"
            , reasoning := some (Json.str "Default selection due to evaluation error")
            , scores := none } = o.content)
        ∨ (SelectionOutcome.winner
            { winner := "claude"
            , content := "beta"
            , reasoning := some (Json.str "Default selection due to evaluation error")
            , scores := none } = "claude"
          ∧ SelectionOutcome.content
            { winner := "claude"
            , content := "beta"
            , reasoning := some (Json.str "Default selection due to evaluation error")
            , scores := none } = c.content)) :=
  ⟨rfl,
    getDualAnalysis_selection_references_success svcW envBothOk "p" "s" optsSB
      { winner := "claude"
      , content := "beta"
      , reasoning := some (Json.str "Default selection due to evaluation error")
      , scores := none } rfl⟩

/-- Environment whose judge reply is the text "null", which parses
successfully to JSON `null`. -/
def envJudgeNull : Env :=
  { openaiApi := oaStub "null"
  , claudeApi := fun _ => Except.error "unused"
  , jsonParse := fun s => if s = "null" then Except.ok Json.null else Except.error "Unexpected token" }

/-- Counterexample to claim C9: the reply "null" parses successfully as JSON,
yet the access `parsed.selected` throws on the `null` receiver, so the
deterministic fallback outcome IS triggered — its rationale is the fixed
string rather than the reply's (absent) rationale passed through. -/
theorem null_reply_triggers_fallback :
    envJudgeNull.jsonParse "null" = Except.ok Json.null
    ∧ selectBestResponse svcW envJudgeNull oResW cResW "q" none =
        { winner := "claude"
        , content := "beta"
        , reasoning := some (Json.str "Default selection due to evaluation error")
        , scores := none }
    ∧ some (Json.str "Default selection due to evaluation error") ≠ (none : Option Json) := by
  refine ⟨rfl, ?_, by simp⟩
  have hj : getOpenAIResponse svcW envJudgeNull (selectionPromptFor oResW cResW "q" none)
      judgeSystemPrompt judgeOptions = Except.ok (evalResW "null") := rfl
  have hp : envJudgeNull.jsonParse (evalResW "null").content = Except.ok Json.null := rfl
  rw [selectBestResponse_of_attempt_error (judgeAttempt_of_parse_null hj hp)]
  rfl

/-- Claim C9 as amended: for every judge reply that parses successfully as
JSON to a value other than `null`, the winner is the first backend (openai)
iff the reply's `selected` field is exactly the string "A"; any other parsed
non-null value yields the second backend (claude) with the reply's rationale
and scores passed through as-is (possibly absent), without the fallback. A
reply parsing to `null` instead throws at the `parsed.selected` access and
does trigger the fallback. -/
theorem selectBestResponse_label_dispatch
    (svc : AIService) (env : Env) (o : OpenAIResult) (c : ClaudeResult)
    (p : String) (cr : Option String) (ev : OpenAIResult) (parsed : Json)
    (hj : getOpenAIResponse svc env (selectionPromptFor o c p cr) judgeSystemPrompt judgeOptions
          = Except.ok ev)
    (hp : env.jsonParse ev.content = Except.ok parsed)
    (hnn : parsed ≠ Json.null) :
    selectBestResponse svc env o c p cr =
      { winner := if selectedIsA parsed then "openai" else "claude"
      , content := if selectedIsA parsed then o.content else c.content
      , reasoning := parsed.lookupField "reasoning"
      , scores := parsed.lookupField "scores" }
    ∧ (selectedIsA parsed = true ↔ parsed.lookupField "selected" = some (Json.str "A")) := by
  constructor
  · exact selectBestResponse_of_attempt_ok (judgeAttempt_of_parse_ok hj hp hnn)
  · cases hsel : parsed.lookupField "selected" with
    | none => simp [selectedIsA, selIsA, hsel]
    | some v => cases v <;> simp [selectedIsA, selIsA, hsel]

/-- The structured reply used in the C9 witness: its `selected` field is the
lowercase string "a", which is not strictly equal to "A". -/
def judgeReplyLower : Json :=
  Json.obj [("selected", Json.str "a"), ("reasoning", Json.str "meh")]

/-- Environment whose judge reply parses to `judgeReplyLower`. -/
def envJudgeLower : Env :=
  { openaiApi := oaStub "replyLower"
  , claudeApi := fun _ => Except.error "unused"
  , jsonParse := fun s => if s = "replyLower" then Except.ok judgeReplyLower else Except.error "Unexpected token" }

/-- Witness for the amended C9: a parsed reply whose `selected` is the
lowercase "a" dispatches to claude with fields passed through. -/
theorem selectBestResponse_label_dispatch_witness :
    judgeReplyLower ≠ Json.null
    ∧ (selectBestResponse svcW envJudgeLower oResW cResW "q" none =
        { winner := if selectedIsA judgeReplyLower then "openai" else "claude"
        , content := if selectedIsA judgeReplyLower then oResW.content else cResW.content
        , reasoning := judgeReplyLower.lookupField "reasoning"
        , scores := judgeReplyLower.lookupField "scores" }
      ∧ (selectedIsA judgeReplyLower = true
          ↔ judgeReplyLower.lookupField "selected" = some (Json.str "A"))) :=
  ⟨by simp [judgeReplyLower],
    selectBestResponse_label_dispatch svcW envJudgeLower oResW cResW "q" none
      (evalResW "replyLower") judgeReplyLower rfl rfl (by simp [judgeReplyLower])⟩

/-- Options passing explicit zero for both temperature and max tokens. -/
def optsZero : Options := { temperature := some 0, maxTokens := some 0 }

/-- Claim C10: an explicitly passed sampling temperature 0 or max output
length 0, being falsy, is replaced by the default — temperature 0.7 on the
OpenAI request, max output length 2000 on both requests. -/
theorem falsy_zero_options_get_defaults
    (svc : AIService) (prompt systemPrompt : String) (options : Options)
    (ht : options.temperature = some 0) (hm : options.maxTokens = some 0) :
    (openaiRequestFor svc prompt systemPrompt options).temperature = some (7/10)
    ∧ (openaiRequestFor svc prompt systemPrompt options).max_tokens = some 2000
    ∧ (claudeRequestFor prompt systemPrompt options).max_tokens = some 2000 := by
  refine ⟨?_, ?_, ?_⟩ <;>
    simp [openaiRequestFor, claudeRequestFor, jsOrRat, jsOrNat, ht, hm]

/-- Witness for C10: concrete zero-valued options. -/
theorem falsy_zero_options_get_defaults_witness :
    (openaiRequestFor svcW "p" "s" optsZero).temperature = some (7/10)
    ∧ (openaiRequestFor svcW "p" "s" optsZero).max_tokens = some 2000
    ∧ (claudeRequestFor "p" "s" optsZero).max_tokens = some 2000 :=
  falsy_zero_options_get_defaults svcW "p" "s" optsZero rfl rfl
